import Mathlib

set_option maxRecDepth 8000

namespace Monitor

/-! Shallow embedding of `src/monitor.py`, a web-endpoint health monitor.
Pure string helpers model the Python `str` operations the source uses. -/

/-- Model of Python `str.strip` (drop leading and trailing whitespace). -/
def pyStrip (s : String) : String :=
  String.mk (((s.toList.dropWhile Char.isWhitespace).reverse.dropWhile Char.isWhitespace).reverse)

/-- Model of Python `str.lower`, as applied by the source to page bodies before
keyword scanning. -/
def pyLower (s : String) : String :=
  String.mk (s.toList.map Char.toLower)

/-- Model of Python `str.startswith`. -/
def pyStartsWith (s p : String) : Bool :=
  p.toList.isPrefixOf s.toList

/-- Model of Python substring containment, `sub in s`. -/
def strContains (s sub : String) : Bool :=
  (s.toList.tails).any (fun t => sub.toList.isPrefixOf t)

/-- Model of Python `str.replace` for the one-character pattern used at
`short_reason` in the source: every newline becomes a space. -/
def replaceNewlines (s : String) : String :=
  String.mk (s.toList.map (fun c => if c = '\n' then ' ' else c))

/-- Auxiliary for `collapseWs`: the flag records whether the previous character
was whitespace (so that a maximal whitespace run produces one space). -/
def collapseWsAux : Bool → List Char → List Char
  | _, [] => []
  | prevWs, c :: cs =>
    if c.isWhitespace then
      if prevWs then collapseWsAux true cs
      else ' ' :: collapseWsAux true cs
    else c :: collapseWsAux false cs

/-- Model of the source regex substitution `re.sub(r"\s+", " ", reason)`. -/
def collapseWs (s : String) : String :=
  String.mk (collapseWsAux false s.toList)

/-- Model of Python `str.take` slicing `reason[:87]`. -/
def pyTake (s : String) (n : Nat) : String :=
  String.mk (s.toList.take n)

/-- Model of Python slicing `s[n:]` by character count. -/
def pyDrop (s : String) (n : Nat) : String :=
  String.mk (s.toList.drop n)

/-- Model of Python `"\n".join(lines)`. -/
def joinLines : List String → String
  | [] => ""
  | [l] => l
  | l :: l2 :: ls => l ++ "\n" ++ joinLines (l2 :: ls)

/-- The soft-outage marker substrings, from `FAIL_KEYWORDS` in the source. -/
def FAIL_KEYWORDS : List String := [
  "sorry, this shop is currently unavailable",
  "this store is unavailable",
  "shop is unavailable",
  "domain not configured",
  "enter using password",
  "site not found",
  "this domain is parked",
  "bad gateway",
  "service unavailable",
  "gateway time-out",
  "error 502",
  "error 503",
  "error 504"
]

/-- `looks_down` from the source: an empty body is the failure signal
`EMPTY_HTML`; otherwise the lowercased body is scanned for the first marker
keyword in list order. -/
def looks_down (html : String) : Option String :=
  if html == "" then some "EMPTY_HTML"
  else
    match FAIL_KEYWORDS.find? (fun kw => strContains (pyLower html) kw) with
    | some kw => some ("KEYWORD:" ++ kw)
    | none => none

/-- The failure-reason precedence applied by `check_one` on a completed
navigation (source lines 183-191): missing response, then status at or above
500, then status 404, then the soft content signal. -/
def probe_reason (status : Option Nat) (html : String) : Option String :=
  match status with
  | none => some "NO_RESPONSE"
  | some s =>
    if 500 ≤ s then some ("HTTP_" ++ toString s)
    else if s = 404 then some "HTTP_404"
    else looks_down html

/-! ### Prober (`check_one`) -/

/-- One structured probe outcome, the dictionary returned by `check_one`. -/
structure ProbeResult where
  url : String
  ok : Bool
  status : Option Nat
  reason : Option String
  final_url : String
deriving Repr, DecidableEq

/-- What happened during the navigation once the page was acquired:
either a completed navigation (with the response status, the post-redirect
URL and the rendered body), a `playwright` navigation timeout raised at
`page.goto`, any other exception raised at `page.goto`, or an exception
raised while reading the body after status and final URL were recorded. -/
inductive NavResult where
  | resp (status : Option Nat) (finalURL : String) (html : String)
  | timeout
  | exnAtGoto (name msg : String)
  | exnAtContent (status : Option Nat) (finalURL : String) (name msg : String)
deriving Repr, DecidableEq

/-- The page-acquisition step `page = await context.new_page()` sits before
the `try` block in the source, so it either yields a page (and then a
navigation result) or raises on its own. -/
inductive PageAcq where
  | acquired (nav : NavResult)
  | newPageExn (name msg : String)
deriving Repr, DecidableEq

/-- `check_one` from the source. `Except.error` models an exception
propagating out of the function; the `Bool` paired with an outcome records
that the `finally` block closed the page on that exit path. -/
def check_one (url : String) (ev : PageAcq) : Except String (ProbeResult × Bool) :=
  match ev with
  | .newPageExn name msg => Except.error (name ++ ": " ++ msg)
  | .acquired nav =>
    Except.ok (match nav with
      | .resp status finalURL html =>
        let reason := probe_reason status html
        ({ url := url, ok := reason.isNone, status := status,
           reason := reason, final_url := finalURL }, true)
      | .timeout =>
        ({ url := url, ok := false, status := none,
           reason := some "TIMEOUT", final_url := url }, true)
      | .exnAtGoto name msg =>
        ({ url := url, ok := false, status := none,
           reason := some ("ERROR:" ++ name ++ ":" ++ msg), final_url := url }, true)
      | .exnAtContent status finalURL name msg =>
        ({ url := url, ok := false, status := status,
           reason := some ("ERROR:" ++ name ++ ":" ++ msg), final_url := finalURL }, true))

/-! ### Classifier / state machine -/

/-- One persistent per-target health record, the dictionary stored under a
URL key in `state.json`. Timestamps are abstract clock readings (the source
stores `now_iso_utc()` strings whose order matches the clock). -/
structure HealthRecord where
  fail_count : Nat
  last_status : Option Nat
  last_reason : Option String
  last_checked : Nat
  last_ok : Option Nat
  final_url : String
deriving Repr, DecidableEq

/-- `int(prev.get("fail_count", 0))`: a missing record contributes 0. -/
def failCountOf : Option HealthRecord → Nat
  | none => 0
  | some st => st.fail_count

/-- `prev.get("last_ok")`: a missing record contributes `None`. -/
def lastOkOf : Option HealthRecord → Option Nat
  | none => none
  | some st => st.last_ok

/-- `st.get("last_status")`. -/
def lastStatusOf : Option HealthRecord → Option Nat
  | none => none
  | some st => st.last_status

/-- `st.get("last_reason")`. -/
def lastReasonOf : Option HealthRecord → Option String
  | none => none
  | some st => st.last_reason

/-- The per-target state update from `run_checks_async` (source lines
236-257): on a successful outcome the failure count resets to 0, the reason
clears and both timestamps are set to now; on a failing outcome the count
increments from the previous value, reason/status/checked are taken from the
outcome and `last_ok` is carried over unchanged. -/
def update_record (now : Nat) (prev : Option HealthRecord) (r : ProbeResult) : HealthRecord :=
  if r.ok then
    { fail_count := 0, last_status := r.status, last_reason := none,
      last_checked := now, last_ok := some now, final_url := r.final_url }
  else
    { fail_count := failCountOf prev + 1, last_status := r.status, last_reason := r.reason,
      last_checked := now, last_ok := lastOkOf prev, final_url := r.final_url }

/-- The whole persistent state: a record per canonical URL, insertion
ordered like a Python dict. -/
abbrev StateMap := List (String × HealthRecord)

/-- Python dict assignment `state[url] = rec`: replace in place if the key
exists, else append. -/
def setEntry (m : StateMap) (k : String) (v : HealthRecord) : StateMap :=
  if (m.lookup k).isSome then
    m.map (fun p => if p.1 = k then (k, v) else p)
  else m ++ [(k, v)]

/-- One iteration of the state-update loop in `run_checks_async`. -/
def update_state (now : Nat) (state : StateMap) (r : ProbeResult) : StateMap :=
  setEntry state r.url (update_record now (state.lookup r.url) r)

/-- The full state-update loop over all collected results. -/
def run_update (now : Nat) (state : StateMap) (results : List ProbeResult) : StateMap :=
  results.foldl (update_state now) state

/-- A sequence of attempts against one target: each step applies
`update_record` with that attempt's outcome and clock reading. -/
def runSeq (init : Option HealthRecord) (steps : List (ProbeResult × Nat)) : Option HealthRecord :=
  steps.foldl (fun acc p => some (update_record p.2 acc p.1)) init

/-- `classify_state` from the source: fail count 0 is `UP`, at or above the
threshold is `DOWN`, anything strictly between is `FAIL_TMP`. -/
def classify_state (threshold : Nat) (st : Option HealthRecord) : String :=
  let fc := failCountOf st
  if fc = 0 then "UP"
  else if threshold ≤ fc then "DOWN"
  else "FAIL_TMP"

/-! ### Reporter -/

/-- The configuration values the summary rendering reads (environment
variables in the source). -/
structure Config where
  FAIL_THRESHOLD : Nat
  MAX_REPORT_ITEMS : Nat
  TIMEOUT_MS : Nat
  CONCURRENCY : Nat
deriving Repr, DecidableEq

/-- `short_reason` from the source: newlines become spaces, the string is
stripped, whitespace runs collapse to one space, and anything longer than
90 characters is cut to 87 plus an ellipsis. -/
def short_reason (r : Option String) : String :=
  match r with
  | none => ""
  | some reason =>
    let reason := collapseWs (pyStrip (replaceNewlines reason))
    if 90 < reason.length then pyTake reason 87 ++ "..." else reason

/-- `reason_group` from the source: maps a recorded failure reason (and the
recorded status) to a display group. A falsy status (`None`) fails the
`status and status >= 500` test. -/
def reason_group (reason : Option String) (status : Option Nat) : String :=
  match reason with
  | none => "OK"
  | some r =>
    if pyStartsWith r "HTTP_404" then "HTTP 404"
    else if pyStartsWith r "HTTP_5" ||
            (match status with | some s => decide (500 ≤ s) | none => false) then "HTTP 5xx"
    else if r == "TIMEOUT" then "TIMEOUT (30s)"
    else if strContains r "ERR_NAME_NOT_RESOLVED" then "DNS / DOMAIN NOT FOUND"
    else if strContains r "ERR_CONNECTION_REFUSED" || strContains r "ERR_CONNECTION_RESET" then "CONNECTION ERROR"
    else if strContains r "KEYWORD:enter using password" then "PASSWORD PAGE"
    else if pyStartsWith r "KEYWORD:" then "SOFT ERROR (keyword)"
    else if pyStartsWith r "ERROR:" then "BROWSER/NETWORK ERROR"
    else "OTHER"

/-- One display row of a summary section: the tuple
`(fail_count, status, reason, url)` the source builds for each non-UP
target. -/
structure Item where
  fc : Nat
  status : Option Nat
  reason : Option String
  url : String
deriving Repr, DecidableEq

/-- The sort key `999 if status is None else status`. -/
def statusKey (it : Item) : Nat :=
  match it.status with
  | none => 999
  | some s => s

/-- The comparator induced by the Python sort key
`(-fail_count, status-or-999)` in ascending order. -/
def item_le (a b : Item) : Bool :=
  decide (b.fc < a.fc) || (decide (a.fc = b.fc) && decide (statusKey a ≤ statusKey b))

/-- Stable insertion used by `sortItems`. -/
def insertItem (a : Item) : List Item → List Item
  | [] => [a]
  | b :: bs => if item_le a b then a :: b :: bs else b :: insertItem a bs

/-- A stable sort by `item_le`, modelling `list.sort(key=lambda x: (-fc, status))`
(Python's sort is stable, and a stable sort is determined by its comparator). -/
def sortItems : List Item → List Item
  | [] => []
  | a :: as => insertItem a (sortItems as)

/-- The display row built for a result's target from the stored state. -/
def result_item (state : StateMap) (r : ProbeResult) : Item :=
  let st := state.lookup r.url
  { fc := failCountOf st, status := lastStatusOf st,
    reason := lastReasonOf st, url := r.url }

/-- `format_group_section` from the source: a heading with the item count,
at most `limit` formatted rows, and a `+K more` marker when truncated. -/
def format_group_section (title : String) (items : List Item) (limit : Nat) : List String :=
  if items.isEmpty then []
  else
    (("\n" ++ title ++ " (" ++ toString items.length ++ "):") ::
      (items.take limit).map (fun it =>
        let status_txt := match it.status with | some s => toString s | none => "-"
        "• (" ++ toString it.fc ++ ") [" ++ status_txt ++ "] " ++
          short_reason it.reason ++ " — " ++ it.url))
    ++ (if limit < items.length then ["… +" ++ toString (items.length - limit) ++ " more"] else [])

/-- The fixed group display order of `build_pretty_summary`. -/
def group_order : List String := [
  "DNS / DOMAIN NOT FOUND",
  "TIMEOUT (30s)",
  "HTTP 5xx",
  "CONNECTION ERROR",
  "HTTP 404",
  "PASSWORD PAGE",
  "SOFT ERROR (keyword)",
  "BROWSER/NETWORK ERROR",
  "OTHER"
]

/-- The non-UP display rows, in result order (the rows the source inserts
into its `groups` dict). -/
def non_up_items (T : Nat) (results : List ProbeResult) (state : StateMap) : List Item :=
  (results.filter (fun r => classify_state T (state.lookup r.url) != "UP")).map (result_item state)

/-- The confirmed-DOWN section rows: every result whose record classifies as
`DOWN`, sorted by descending fail count then status. -/
def down_items (T : Nat) (results : List ProbeResult) (state : StateMap) : List Item :=
  sortItems ((results.filter (fun r => classify_state T (state.lookup r.url) == "DOWN")).map
    (result_item state))

/-- The rows of one `FAIL_TMP` group section: the non-UP rows of that reason
group, sorted, keeping only those strictly under the threshold. -/
def tmp_group_items (T : Nat) (g : String) (results : List ProbeResult) (state : StateMap) : List Item :=
  (sortItems ((non_up_items T results state).filter
    (fun it => reason_group it.reason it.status == g))).filter
    (fun it => decide (it.fc < T))

/-- The lines of the summary after the three header lines: the all-clear
line when nothing is wrong, else the confirmed-DOWN section followed by the
per-group `FAIL_TMP` sections. -/
def summary_body_lines (cfg : Config) (results : List ProbeResult) (state : StateMap) : List String :=
  if (non_up_items cfg.FAIL_THRESHOLD results state).isEmpty then
    ["\n✅ All domains look OK."]
  else
    let per_group_limit := if results.length ≤ 200 then 25 else 15
    let downs := down_items cfg.FAIL_THRESHOLD results state
    (if downs.isEmpty then []
     else format_group_section "❌ DOWN (confirmed)" downs (min cfg.MAX_REPORT_ITEMS 60))
    ++ group_order.flatMap (fun g =>
        let filtered := tmp_group_items cfg.FAIL_THRESHOLD g results state
        if filtered.isEmpty then []
        else format_group_section ("⚠️ FAIL_TMP — " ++ g) filtered per_group_limit)

/-- `build_pretty_summary` from the source: three header lines (title with
the current clock, the counts, the rule line), then the body sections. -/
def build_pretty_summary (cfg : Config) (now : String) (titleText : String)
    (results : List ProbeResult) (state : StateMap) : String :=
  let cls := fun r => classify_state cfg.FAIL_THRESHOLD (state.lookup (ProbeResult.url r))
  let up := (results.filter (fun r => cls r == "UP")).length
  let down := (results.filter (fun r => cls r == "DOWN")).length
  let fail_tmp := (results.filter (fun r => cls r != "UP" && cls r != "DOWN")).length
  joinLines (
    [titleText ++ " (UTC): " ++ now,
     "📌 Checked: " ++ toString results.length ++ " | ✅ UP: " ++ toString up ++
       " | ⚠️ FAIL_TMP: " ++ toString fail_tmp ++ " | ❌ DOWN: " ++ toString down,
     "⚙️ Rule: DOWN if fail_count ≥ " ++ toString cfg.FAIL_THRESHOLD ++
       " | Timeout: " ++ toString (cfg.TIMEOUT_MS / 1000) ++ "s | Concurrency: " ++
       toString cfg.CONCURRENCY]
    ++ summary_body_lines cfg results state)

/-! ### Target normalizer -/

/-- The scheme and authority component of a parsed URL. -/
structure UrlParts where
  scheme : String
  netloc : String
deriving Repr, DecidableEq

/-- The authority component: the characters after `scheme://` up to the
first of `/`, `?` or `#`, exactly as `urllib.parse` splits the netloc. -/
def takeNetloc (s : String) : String :=
  String.mk (s.toList.takeWhile (fun c => !(c == '/' || c == '?' || c == '#')))

/-- Model of `urllib.parse.urlparse` restricted to the scheme and netloc
fields, for inputs that carry an explicit `http://` or `https://` scheme —
the only inputs `normalize_url` ever parses, since it prepends `https://`
otherwise. `urlparse` preserves the case of the netloc. -/
def urlparse_scheme_netloc (s : String) : UrlParts :=
  if pyStartsWith s "http://" then ⟨"http", takeNetloc (pyDrop s 7)⟩
  else if pyStartsWith s "https://" then ⟨"https", takeNetloc (pyDrop s 8)⟩
  else ⟨"", ""⟩

/-- `normalize_url` from the source: strip, drop blanks and comment lines,
prepend `https://` when no scheme literal is present, reject inputs without
an authority, and rebuild as `scheme://netloc` plus the configured check
path. The empty string models Python's falsy rejection value. -/
def normalize_url (check_path : String) (line : String) : String :=
  let s := pyStrip line
  if s == "" || pyStartsWith s "#" then ""
  else
    let s := if !pyStartsWith s "http://" && !pyStartsWith s "https://" then "https://" ++ s else s
    let u := urlparse_scheme_netloc s
    if u.netloc == "" then ""
    else u.scheme ++ "://" ++ u.netloc ++ check_path

/-! ### Run traces: persistence and notification -/

/-- The externally visible effects a run performs on the state store and the
notifier, in order. -/
inductive Event where
  | save (st : StateMap)
  | send (text : String)
deriving Repr, DecidableEq

/-- Whether an event writes the state store. -/
def isSaveEvent : Event → Bool
  | .save _ => true
  | .send _ => false

/-- Whether a run result is a normal completion. -/
def isOkRun {α : Type} : Except String α → Bool
  | .ok _ => true
  | .error _ => false

/-- The notifier environment: whether the Telegram credentials are
configured, and whether the delivery request would succeed. -/
structure NotifyEnv where
  configured : Bool
  deliveryOk : Bool
deriving Repr, DecidableEq

/-- `send_telegram` from the source: a missing configuration is a logged
skip; otherwise one send is attempted and `raise_for_status` turns a failed
delivery into a propagating exception. -/
def send_telegram (env : NotifyEnv) (text : String) : List Event × Except String Unit :=
  if env.configured then
    ([Event.send text], if env.deliveryOk then Except.ok () else Except.error "HTTPError")
  else ([], Except.ok ())

/-- `report_and_reset` builds its pseudo-results from the stored records:
one result per record, successful exactly when the stored fail count is 0. -/
def pseudo_results (state : StateMap) : List ProbeResult :=
  state.map (fun p =>
    { url := p.1, ok := decide (p.2.fail_count = 0), status := p.2.last_status,
      reason := p.2.last_reason, final_url := p.2.final_url })

/-- `report_and_reset` from the source: render the summary over the current
state, send it, and return the empty collection as the next state. An
exception from the send propagates before the cleared state is returned. -/
def report_and_reset (cfg : Config) (env : NotifyEnv) (now : String) (state : StateMap) :
    List Event × Except String StateMap :=
  let text := build_pretty_summary cfg now "🧾 Night Monitor Summary" (pseudo_results state) state
  let r := send_telegram env text
  (r.1, r.2.map (fun _ => ([] : StateMap)))

/-- The `report` branch of `main`: run `report_and_reset`, then save the
returned state — unless an exception already propagated. -/
def run_report (cfg : Config) (env : NotifyEnv) (now : String) (state0 : StateMap) :
    List Event × Except String Unit :=
  match report_and_reset cfg env now state0 with
  | (ev, Except.ok ns) => (ev ++ [Event.save ns], Except.ok ())
  | (ev, Except.error e) => (ev, Except.error e)

/-- The `check` branch of `main`: update the state from the collected
results, save it, and only then (when `FORCE_SEND` is set) build and send
the immediate summary, whose failure propagates after the save. -/
def run_check (cfg : Config) (env : NotifyEnv) (now : Nat) (nowS : String)
    (results : List ProbeResult) (state0 : StateMap) (forceSend : Bool) :
    List Event × Except String Unit :=
  let state1 := run_update now state0 results
  if forceSend then
    let text := build_pretty_summary cfg nowS "🧪 Test Run Result" results state1
    let r := send_telegram env text
    (Event.save state1 :: r.1, r.2)
  else ([Event.save state1], Except.ok ())

/-! ### Helper lemmas -/

/-- `find?` returns the first element of the list satisfying the test. -/
theorem find?_append_first {α : Type} (p : α → Bool) (l1 : List α) (a : α) (l2 : List α)
    (ha : p a = true) (h1 : ∀ x ∈ l1, p x = false) :
    (l1 ++ a :: l2).find? p = some a := by
  induction l1 with
  | nil => simpa using List.find?_cons_of_pos l2 ha
  | cons b bs ih =>
    have hb : p b = false := h1 b (List.mem_cons_self b bs)
    have hrest : ∀ x ∈ bs, p x = false := fun x hx => h1 x (List.mem_cons_of_mem b hx)
    rw [List.cons_append, List.find?_cons_of_neg _ (by simp [hb])]
    exact ih hrest

/-- Membership in the stable insertion step. -/
theorem mem_insertItem {x a : Item} {l : List Item} :
    x ∈ insertItem a l ↔ x = a ∨ x ∈ l := by
  induction l with
  | nil => simp [insertItem]
  | cons b bs ih =>
    by_cases h : item_le a b = true
    · simp [insertItem, h, List.mem_cons]
    · have hstep : insertItem a (b :: bs) = b :: insertItem a bs := by
        simp [insertItem, h]
      rw [hstep]
      simp only [List.mem_cons, ih]
      tauto

/-- The stable sort is a permutation of its input at the level of
membership. -/
theorem mem_sortItems {x : Item} {l : List Item} : x ∈ sortItems l ↔ x ∈ l := by
  induction l with
  | nil => simp [sortItems]
  | cons a as ih => simp [sortItems, mem_insertItem, ih, List.mem_cons]

/-- Ordering on optional clock readings: every present value on the left is
dominated by a present value on the right. -/
def optLe (a b : Option Nat) : Prop :=
  ∀ x, a = some x → ∃ y, b = some y ∧ x ≤ y

theorem optLe_refl (a : Option Nat) : optLe a a :=
  fun x hx => ⟨x, hx, le_refl x⟩

/-- The failure count of a run of attempts all of which fail adds the number
of attempts to the starting count. -/
theorem failCount_runSeq (steps : List (ProbeResult × Nat)) (init : Option HealthRecord)
    (h : ∀ p ∈ steps, (Prod.fst p).ok = false) :
    failCountOf (runSeq init steps) = failCountOf init + steps.length := by
  induction steps generalizing init with
  | nil => simp [runSeq]
  | cons p rest ih =>
    have hp : (Prod.fst p).ok = false := h p (List.mem_cons_self p rest)
    have hrest : ∀ q ∈ rest, (Prod.fst q).ok = false :=
      fun q hq => h q (List.mem_cons_of_mem p hq)
    have : runSeq init (p :: rest) = runSeq (some (update_record p.2 init p.1)) rest := rfl
    rw [this, ih _ hrest]
    simp [failCountOf, update_record, hp]
    omega

/-- Unfolding of `classify_state` by the stored failure count. -/
theorem classify_state_eq (T : Nat) (st : Option HealthRecord) :
    classify_state T st =
      (if failCountOf st = 0 then "UP"
       else if T ≤ failCountOf st then "DOWN" else "FAIL_TMP") := rfl

/-- A generic transport-error reason can never collide with the dedicated
timeout reason. -/
theorem error_reason_ne_timeout (n m : String) :
    ("ERROR:" ++ n ++ ":" ++ m) ≠ "TIMEOUT" := by
  intro h
  have h2 : ("ERROR:" ++ n ++ ":" ++ m).data = "TIMEOUT".data := congrArg String.data h
  have h3 : 'E' :: ((String.mk "RROR:".data ++ n ++ ":" ++ m).data) = "TIMEOUT".data := h2
  simp [String.data] at h3

/-! ### Sample values used by witnesses and counterexamples -/

/-- The default configuration: threshold 3, 200 report items, 30s timeout,
concurrency 30. -/
def cfg0 : Config := ⟨3, 200, 30000, 30⟩

/-- A failing probe outcome. -/
def sampleFail : ProbeResult :=
  ⟨"https://a.test/", false, some 503, some "HTTP_503", "https://a.test/"⟩

/-- A successful probe outcome. -/
def sampleOk : ProbeResult :=
  ⟨"https://a.test/", true, some 200, none, "https://a.test/"⟩

/-- A stored record with four consecutive failures. -/
def rec0 : HealthRecord := ⟨4, some 503, some "HTTP_503", 10, some 5, "https://a.test/"⟩

/-- A one-record state collection. -/
def st0 : StateMap := [("https://a.test/", rec0)]

/-! ### Claims -/

/-- C1: the derived health class is a pure function of the consecutive-failure
count against the threshold — count 0 is UP, a nonzero count at or above the
threshold is DOWN, a count strictly between is FAIL_TMP — and with threshold 3
a run of failing attempts from a clean state drives the class through
UP, FAIL_TMP, FAIL_TMP, DOWN, reaching DOWN exactly when the count equals the
threshold and not before. -/
theorem C1_health_class_threshold :
    (∀ T st, failCountOf st = 0 → classify_state T st = "UP") ∧
    (∀ T st, failCountOf st ≠ 0 → T ≤ failCountOf st → classify_state T st = "DOWN") ∧
    (∀ T st, 0 < failCountOf st → failCountOf st < T → classify_state T st = "FAIL_TMP") ∧
    (∀ steps : List (ProbeResult × Nat), (∀ p ∈ steps, (Prod.fst p).ok = false) →
      failCountOf (runSeq none steps) = steps.length ∧
      (classify_state 3 (runSeq none steps) = "UP" ↔ steps.length = 0) ∧
      (classify_state 3 (runSeq none steps) = "FAIL_TMP" ↔
        (1 ≤ steps.length ∧ steps.length < 3)) ∧
      (classify_state 3 (runSeq none steps) = "DOWN" ↔ 3 ≤ steps.length)) := by
  refine ⟨?_, ?_, ?_, ?_⟩
  · intro T st h
    simp [classify_state, h]
  · intro T st h1 h2
    simp [classify_state, h1, h2]
  · intro T st h1 h2
    have hne : ¬ failCountOf st = 0 := by omega
    have hlt : ¬ T ≤ failCountOf st := by omega
    simp [classify_state, hne, hlt]
  · intro steps hfail
    have hfc := failCount_runSeq steps none hfail
    rw [show failCountOf none = 0 from rfl, Nat.zero_add] at hfc
    refine ⟨hfc, ?_, ?_, ?_⟩ <;> rw [classify_state_eq, hfc] <;>
      by_cases h0 : steps.length = 0
    · simp [h0]
    · by_cases h3 : 3 ≤ steps.length <;> simp [h0, h3]
    · simp [h0]
    · by_cases h3 : 3 ≤ steps.length <;> simp [h0, h3]
      omega
    · simp [h0]
    · by_cases h3 : 3 ≤ steps.length <;> simp [h0, h3]

/-- C1 witness: a record with count 3 at threshold 3 classifies as DOWN. -/
theorem C1_witness :
    classify_state 3 (some ⟨3, some 503, some "HTTP_503", 0, none, "https://a.test/"⟩) = "DOWN" :=
  C1_health_class_threshold.2.1 3
    (some ⟨3, some 503, some "HTTP_503", 0, none, "https://a.test/"⟩) (by decide) (by decide)

/-- C2: on a successful outcome the failure count resets to 0, the reason is
cleared, and both timestamps are set to now; on a failing outcome the count
is the previous count plus one (0 when no prior record exists), reason,
status and checked time come from the outcome and the last-healthy timestamp
is carried over unchanged. -/
theorem C2_update_rule :
    (∀ now prev r, r.ok = true →
      update_record now prev r =
        { fail_count := 0, last_status := r.status, last_reason := none,
          last_checked := now, last_ok := some now, final_url := r.final_url }) ∧
    (∀ now prev r, r.ok = false →
      update_record now prev r =
        { fail_count := failCountOf prev + 1, last_status := r.status,
          last_reason := r.reason, last_checked := now, last_ok := lastOkOf prev,
          final_url := r.final_url }) ∧
    failCountOf none = 0 ∧ lastOkOf none = none := by
  refine ⟨?_, ?_, rfl, rfl⟩
  · intro now prev r h
    simp [update_record, h]
  · intro now prev r h
    simp [update_record, h]

/-- C2 witness: a failing outcome over a record with four failures yields
five failures and keeps the old healthy timestamp. -/
theorem C2_witness :
    update_record 7 (some rec0) sampleFail =
      { fail_count := 5, last_status := some 503, last_reason := some "HTTP_503",
        last_checked := 7, last_ok := some 5, final_url := "https://a.test/" } := by
  have h := C2_update_rule.2.1 7 (some rec0) sampleFail (by decide)
  simpa [rec0, sampleFail, failCountOf, lastOkOf] using h

/-- C3: after any update the failure count is 0 exactly when the attempt
succeeded; the last-healthy timestamp is written only by successful attempts,
and across any sequence of attempts whose clock readings advance, it is
monotonically non-decreasing. -/
theorem C3_record_invariant :
    (∀ now prev r, (update_record now prev r).fail_count = 0 ↔ r.ok = true) ∧
    (∀ now prev r, r.ok = false → (update_record now prev r).last_ok = lastOkOf prev) ∧
    (∀ init steps, List.Pairwise (· ≤ ·) ((lastOkOf init).toList ++ steps.map Prod.snd) →
      optLe (lastOkOf init) (lastOkOf (runSeq init steps))) := by
  refine ⟨?_, ?_, ?_⟩
  · intro now prev r
    cases h : r.ok <;> simp [update_record, h]
  · intro now prev r h
    simp [update_record, h]
  · intro init steps
    induction steps generalizing init with
    | nil => exact fun _ => optLe_refl _
    | cons p rest ih =>
      intro hp
      obtain ⟨r, t⟩ := p
      simp only [List.map_cons] at hp
      have hrun : runSeq init ((r, t) :: rest) = runSeq (some (update_record t init r)) rest := rfl
      rw [hrun]
      cases hok : r.ok with
      | false =>
        have hlast : lastOkOf (some (update_record t init r)) = lastOkOf init := by
          simp [lastOkOf, update_record, hok]
        have hsub : ((lastOkOf init).toList ++ rest.map Prod.snd).Sublist
            ((lastOkOf init).toList ++ (t :: rest.map Prod.snd)) :=
          List.Sublist.append_left (List.sublist_cons_self _ _) _
        have hp2 : List.Pairwise (· ≤ ·)
            ((lastOkOf (some (update_record t init r))).toList ++ rest.map Prod.snd) := by
          rw [hlast]
          exact hp.sublist hsub
        have hmain := ih (some (update_record t init r)) hp2
        rw [hlast] at hmain
        exact hmain
      | true =>
        have hlast : lastOkOf (some (update_record t init r)) = some t := by
          simp [lastOkOf, update_record, hok]
        have hsub : (t :: rest.map Prod.snd).Sublist
            ((lastOkOf init).toList ++ (t :: rest.map Prod.snd)) :=
          List.sublist_append_right _ _
        have hp2 : List.Pairwise (· ≤ ·)
            ((lastOkOf (some (update_record t init r))).toList ++ rest.map Prod.snd) := by
          rw [hlast]
          exact hp.sublist hsub
        have hmain := ih (some (update_record t init r)) hp2
        rw [hlast] at hmain
        intro x hx
        have hxt : x ≤ t := by
          rw [hx] at hp
          simp only [Option.toList_some, List.cons_append, List.nil_append] at hp
          exact (List.pairwise_cons.mp hp).1 t (List.mem_cons_self _ _)
        obtain ⟨y, hy, hty⟩ := hmain t rfl
        exact ⟨y, hy, le_trans hxt hty⟩

/-- C3 witness: a later successful attempt moves the healthy timestamp of a
record last healthy at 5 to a value at least 5. -/
theorem C3_witness :
    ∃ y, lastOkOf (runSeq (some rec0) [(sampleOk, 12)]) = some y ∧ 5 ≤ y := by
  have h := C3_record_invariant.2.2 (some rec0) [(sampleOk, 12)] (by decide)
  exact h 5 (by rfl)

/-- C4: on a completed navigation the failure reason follows the precedence
missing response, then status at or above 500, then status 404, then the soft
content signal, else success; the empty body gives the distinct reason
EMPTY_HTML, and a non-empty body is scanned case-insensitively for the first
matching keyword in list order. -/
theorem C4_reason_precedence :
    (∀ html, probe_reason none html = some "NO_RESPONSE") ∧
    (∀ s html, 500 ≤ s → probe_reason (some s) html = some ("HTTP_" ++ toString s)) ∧
    (∀ html, probe_reason (some 404) html = some "HTTP_404") ∧
    (∀ s html, s < 500 → s ≠ 404 → probe_reason (some s) html = looks_down html) ∧
    looks_down "" = some "EMPTY_HTML" ∧
    (∀ html l1 kw l2, html ≠ "" → FAIL_KEYWORDS = l1 ++ kw :: l2 →
      strContains (pyLower html) kw = true →
      (∀ k ∈ l1, strContains (pyLower html) k = false) →
      looks_down html = some ("KEYWORD:" ++ kw)) ∧
    (∀ s html, s < 500 → s ≠ 404 → looks_down html = none →
      probe_reason (some s) html = none) := by
  refine ⟨fun _ => rfl, ?_, fun _ => rfl, ?_, rfl, ?_, ?_⟩
  · intro s html h
    simp [probe_reason, h]
  · intro s html h1 h2
    have h1' : ¬ 500 ≤ s := by omega
    simp [probe_reason, h1', h2]
  · intro html l1 kw l2 hne hsplit hkw hfirst
    have hne' : (html == "") = false := by
      simpa [beq_iff_eq] using hne
    rw [looks_down, hne']
    simp only [Bool.false_eq_true, if_false]
    rw [hsplit, find?_append_first _ _ _ _ hkw hfirst]
  · intro s html h1 h2 h3
    have h1' : ¬ 500 ≤ s := by omega
    simp [probe_reason, h1', h2, h3]

/-- C4 witness: a page body carrying the second marker keyword but not the
first is reported with that keyword reason. -/
theorem C4_witness :
    looks_down "This Store Is Unavailable right now" =
      some ("KEYWORD:" ++ "this store is unavailable") :=
  C4_reason_precedence.2.2.2.2.2.1 "This Store Is Unavailable right now"
    ["sorry, this shop is currently unavailable"] "this store is unavailable"
    ["shop is unavailable", "domain not configured", "enter using password",
     "site not found", "this domain is parked", "bad gateway", "service unavailable",
     "gateway time-out", "error 502", "error 503", "error 504"]
    (by decide) (by decide) (by decide) (by decide)

/-- C5 counterexample: the page-acquisition step sits before the `try` block,
so an exception raised there propagates out of the prober and no structured
outcome is produced. -/
theorem C5_counterexample :
    check_one "https://example.com/"
        (PageAcq.newPageExn "TargetClosedError" "browser has been closed") =
      Except.error "TargetClosedError: browser has been closed" ∧
    isOkRun (check_one "https://example.com/"
        (PageAcq.newPageExn "TargetClosedError" "browser has been closed")) = false :=
  ⟨rfl, rfl⟩

/-- C5 amended: once the page is acquired, one invocation returns exactly one
structured outcome and never propagates an exception — a navigation timeout
becomes the dedicated reason TIMEOUT, distinct from the generic error reason
that carries the underlying error category, and the page is closed on every
such exit path; an exception raised while acquiring the page itself, however,
propagates. -/
theorem C5_prober_capture :
    (∀ url nav, ∃ out, check_one url (PageAcq.acquired nav) = Except.ok (out, true)) ∧
    (∀ url, check_one url (PageAcq.acquired NavResult.timeout) =
      Except.ok ({ url := url, ok := false, status := none,
                   reason := some "TIMEOUT", final_url := url }, true)) ∧
    (∀ url name msg,
      check_one url (PageAcq.acquired (NavResult.exnAtGoto name msg)) =
        Except.ok ({ url := url, ok := false, status := none,
                     reason := some ("ERROR:" ++ name ++ ":" ++ msg), final_url := url }, true) ∧
      some ("ERROR:" ++ name ++ ":" ++ msg) ≠ some "TIMEOUT") ∧
    (∀ url status finalURL name msg,
      check_one url (PageAcq.acquired (NavResult.exnAtContent status finalURL name msg)) =
        Except.ok ({ url := url, ok := false, status := status,
                     reason := some ("ERROR:" ++ name ++ ":" ++ msg), final_url := finalURL }, true)) ∧
    (∀ url name msg, check_one url (PageAcq.newPageExn name msg) =
      Except.error (name ++ ": " ++ msg)) := by
  refine ⟨?_, fun _ => rfl, ?_, fun _ _ _ _ _ => rfl, fun _ _ _ => rfl⟩
  · intro url nav
    cases nav <;> exact ⟨_, rfl⟩
  · intro url name msg
    refine ⟨rfl, ?_⟩
    intro h
    exact error_reason_ne_timeout name msg (Option.some.inj h)

/-- C6 counterexample: with check path `/`, `http://example.com/x` keeps its
`http` scheme while `example.com` gets `https` prepended, so the two inputs
do not normalize to one and the same canonical URL. -/
theorem C6_counterexample :
    normalize_url "/" "http://example.com/x" = "http://example.com/" ∧
    normalize_url "/" "example.com" = "https://example.com/" ∧
    normalize_url "/" "http://example.com/x" ≠ normalize_url "/" "example.com" := by
  refine ⟨by decide, by decide, by decide⟩

/-- C6 amended: the normalizer rebuilds `scheme://host` plus the configured
check path, discarding any operator-supplied path or query, but it preserves
the input scheme and the letter case of the host: with check path `/` the
three inputs map to `https://example.com/`, `http://example.com/` and
`https://Example.com/`, three pairwise distinct canonical URLs. -/
theorem C6_normalize_amended :
    normalize_url "/" "example.com" = "https://example.com/" ∧
    normalize_url "/" "http://example.com/x" = "http://example.com/" ∧
    normalize_url "/" "  https://Example.com  " = "https://Example.com/" ∧
    normalize_url "/" "https://example.com/path?q=1" = "https://example.com/" ∧
    normalize_url "/" "http://example.com/x" ≠ normalize_url "/" "example.com" ∧
    normalize_url "/" "  https://Example.com  " ≠ normalize_url "/" "example.com" ∧
    normalize_url "/" "  https://Example.com  " ≠ normalize_url "/" "http://example.com/x" := by
  refine ⟨by decide, by decide, by decide, by decide, by decide, by decide, by decide⟩

/-- C7: a completed report cycle clears the entire state collection (the
empty collection is returned and saved), a subsequent report then runs over
empty state and renders the all-clear summary, and every target starts the
next cycle with zero consecutive failures. -/
theorem C7_report_cycle :
    (∀ cfg env now state0, env.deliveryOk = true ∨ env.configured = false →
      (report_and_reset cfg env now state0).2 = Except.ok ([] : StateMap) ∧
      (run_report cfg env now state0).1.getLast? = some (Event.save ([] : StateMap))) ∧
    pseudo_results ([] : StateMap) = [] ∧
    (∀ cfg now p, build_pretty_summary cfg now p [] ([] : StateMap) =
      joinLines [p ++ " (UTC): " ++ now,
        "📌 Checked: 0 | ✅ UP: 0 | ⚠️ FAIL_TMP: 0 | ❌ DOWN: 0",
        "⚙️ Rule: DOWN if fail_count ≥ " ++ toString cfg.FAIL_THRESHOLD ++
          " | Timeout: " ++ toString (cfg.TIMEOUT_MS / 1000) ++ "s | Concurrency: " ++
          toString cfg.CONCURRENCY,
        "\n✅ All domains look OK."]) ∧
    (∀ url, failCountOf (([] : StateMap).lookup url) = 0) ∧
    (∀ now r, r.ok = false →
      (update_record now (([] : StateMap).lookup r.url) r).fail_count = 1) := by
  refine ⟨?_, rfl, ?_, fun _ => rfl, ?_⟩
  · intro cfg env now state0 h
    obtain ⟨c, d⟩ := env
    rcases h with hd | hc
    · cases hd
      cases c <;>
        simp [report_and_reset, send_telegram, run_report, Except.map, List.getLast?_concat]
    · cases hc
      simp [report_and_reset, send_telegram, run_report, Except.map, List.getLast?_concat]
  · intro cfg now p
    have e2 : ("📌 Checked: " ++ toString (0:Nat) ++ " | ✅ UP: " ++ toString (0:Nat) ++
        " | ⚠️ FAIL_TMP: " ++ toString (0:Nat) ++ " | ❌ DOWN: " ++ toString (0:Nat)) =
        "📌 Checked: 0 | ✅ UP: 0 | ⚠️ FAIL_TMP: 0 | ❌ DOWN: 0" := rfl
    rw [show build_pretty_summary cfg now p [] ([] : StateMap) =
        joinLines ([p ++ " (UTC): " ++ now,
          "📌 Checked: " ++ toString (0:Nat) ++ " | ✅ UP: " ++ toString (0:Nat) ++
            " | ⚠️ FAIL_TMP: " ++ toString (0:Nat) ++ " | ❌ DOWN: " ++ toString (0:Nat),
          "⚙️ Rule: DOWN if fail_count ≥ " ++ toString cfg.FAIL_THRESHOLD ++
            " | Timeout: " ++ toString (cfg.TIMEOUT_MS / 1000) ++ "s | Concurrency: " ++
            toString cfg.CONCURRENCY] ++ summary_body_lines cfg [] ([] : StateMap)) from rfl,
      e2, show summary_body_lines cfg [] ([] : StateMap) = ["\n✅ All domains look OK."] from rfl]
    rfl
  · intro now r h
    simp [update_record, h, failCountOf]

/-- C7 witness: a successful report over a one-record state returns and
saves the empty collection. -/
theorem C7_witness :
    (report_and_reset cfg0 ⟨true, true⟩ "t" st0).2 = Except.ok ([] : StateMap) ∧
    (run_report cfg0 ⟨true, true⟩ "t" st0).1.getLast? = some (Event.save ([] : StateMap)) :=
  C7_report_cycle.1 cfg0 ⟨true, true⟩ "t" st0 (Or.inl rfl)

/-- C8 counterexample: in report mode with a configured notifier whose
delivery fails, the run raises out of `report_and_reset` before
`save_state` ever runs, so the trace contains no save event at all — the
computed (cleared) state is not persisted. -/
theorem C8_counterexample :
    (run_report cfg0 ⟨true, false⟩ "2024-01-01 00:00:00" st0).1.any isSaveEvent = false ∧
    isOkRun (run_report cfg0 ⟨true, false⟩ "2024-01-01 00:00:00" st0).2 = false := by
  refine ⟨by decide, by decide⟩

/-- C8 amended: in check mode the computed state is persisted first, before
any notification attempt, so delivery failure never prevents persistence; in
report mode notification precedes persistence, so a configured-but-failing
delivery propagates as an error and the cleared collection is not saved,
while a successful or unconfigured delivery is followed by saving the
cleared collection; a missing notifier configuration is a skip, not an
error. -/
theorem C8_persistence_order :
    (∀ cfg env now nowS results state0 forceSend,
      (run_check cfg env now nowS results state0 forceSend).1.head? =
        some (Event.save (run_update now state0 results))) ∧
    (∀ cfg env now state0, env.deliveryOk = true ∨ env.configured = false →
      (run_report cfg env now state0).1.getLast? = some (Event.save ([] : StateMap)) ∧
      isOkRun (run_report cfg env now state0).2 = true) ∧
    (∀ cfg env now state0, env.configured = true → env.deliveryOk = false →
      (run_report cfg env now state0).1.any isSaveEvent = false ∧
      isOkRun (run_report cfg env now state0).2 = false) ∧
    (∀ text d, send_telegram ⟨false, d⟩ text = ([], Except.ok ())) := by
  refine ⟨?_, ?_, ?_, fun _ _ => rfl⟩
  · intro cfg env now nowS results state0 forceSend
    cases forceSend <;> simp [run_check]
  · intro cfg env now state0 h
    obtain ⟨c, d⟩ := env
    rcases h with hd | hc
    · cases hd
      cases c <;>
        simp [run_report, report_and_reset, send_telegram, Except.map,
          List.getLast?_concat, isOkRun]
    · cases hc
      simp [run_report, report_and_reset, send_telegram, Except.map,
        List.getLast?_concat, isOkRun]
  · intro cfg env now state0 hc hd
    obtain ⟨c, d⟩ := env
    cases hc
    cases hd
    simp [run_report, report_and_reset, send_telegram, Except.map, isOkRun, isSaveEvent]

/-- C8 witness: with a configured, succeeding notifier, a report run over a
one-record state ends by saving the cleared collection. -/
theorem C8_witness :
    (run_report cfg0 ⟨true, true⟩ "t" st0).1.getLast? = some (Event.save ([] : StateMap)) ∧
    isOkRun (run_report cfg0 ⟨true, true⟩ "t" st0).2 = true :=
  C8_persistence_order.2.1 cfg0 ⟨true, true⟩ "t" st0 (Or.inl rfl)

/-- C9 counterexample: the rendered summary embeds the clock reading of the
moment of rendering in its header, so two renderings of the same state at
different clock readings are not byte-identical. -/
theorem C9_counterexample :
    build_pretty_summary cfg0 "2024-01-01 00:00:00" "🧾 Night Monitor Summary" [] [] ≠
    build_pretty_summary cfg0 "2024-01-01 00:00:01" "🧾 Night Monitor Summary" [] [] := by
  decide

/-- C9 amended: two renderings over the same results and state differ at
most in the timestamp header line — every line after the first is
byte-identical, so renderings at one and the same clock reading are
byte-identical. -/
theorem C9_render_deterministic :
    ∀ cfg t results state now1 now2, ∃ rest : List String,
      build_pretty_summary cfg now1 t results state =
        joinLines ((t ++ " (UTC): " ++ now1) :: rest) ∧
      build_pretty_summary cfg now2 t results state =
        joinLines ((t ++ " (UTC): " ++ now2) :: rest) := by
  intro cfg t results state now1 now2
  exact ⟨_, rfl, rfl⟩

/-- The confirmed-DOWN section only lists records at or above the threshold
(with a nonzero count). -/
theorem down_items_fc {T : Nat} {results : List ProbeResult} {state : StateMap} {x : Item}
    (hx : x ∈ down_items T results state) : T ≤ x.fc ∧ x.fc ≠ 0 := by
  rw [down_items, mem_sortItems] at hx
  obtain ⟨r, hr, hx'⟩ := List.mem_map.mp hx
  have hcls := (List.mem_filter.mp hr).2
  rw [beq_iff_eq, classify_state_eq] at hcls
  subst hx'
  by_cases h0 : failCountOf (state.lookup r.url) = 0
  · rw [if_pos h0] at hcls
    exact absurd hcls (by decide)
  · rw [if_neg h0] at hcls
    by_cases hT : T ≤ failCountOf (state.lookup r.url)
    · exact ⟨hT, h0⟩
    · rw [if_neg hT] at hcls
      exact absurd hcls (by decide)

/-- A FAIL_TMP group section only lists records strictly under the
threshold, and only records of its own reason group. -/
theorem tmp_group_items_fc {T : Nat} {g : String} {results : List ProbeResult}
    {state : StateMap} {x : Item}
    (hx : x ∈ tmp_group_items T g results state) :
    x.fc < T ∧ reason_group x.reason x.status = g := by
  rw [tmp_group_items] at hx
  obtain ⟨hmem, hlt⟩ := List.mem_filter.mp hx
  rw [mem_sortItems] at hmem
  have hg := (List.mem_filter.mp hmem).2
  rw [beq_iff_eq] at hg
  exact ⟨of_decide_eq_true hlt, hg⟩

/-- C10: no target appears in more than one summary section — the
confirmed-DOWN section holds exactly records at or above the threshold, each
FAIL_TMP group section holds only records strictly under the threshold of
its own reason group, so the DOWN section is disjoint from every FAIL_TMP
section and the FAIL_TMP sections are pairwise disjoint. -/
theorem C10_sections_disjoint :
    (∀ T results state x, x ∈ down_items T results state → T ≤ x.fc ∧ x.fc ≠ 0) ∧
    (∀ T g results state x, x ∈ tmp_group_items T g results state →
      x.fc < T ∧ reason_group x.reason x.status = g) ∧
    (∀ T g results state x, x ∈ down_items T results state →
      x ∈ tmp_group_items T g results state → False) ∧
    (∀ T g g2 results state x, x ∈ tmp_group_items T g results state →
      x ∈ tmp_group_items T g2 results state → g = g2) := by
  refine ⟨fun _ _ _ _ hx => down_items_fc hx,
          fun _ _ _ _ _ hx => tmp_group_items_fc hx, ?_, ?_⟩
  · intro T g results state x hd ht
    have h1 := (down_items_fc hd).1
    have h2 := (tmp_group_items_fc ht).1
    omega
  · intro T g g2 results state x h1 h2
    rw [← (tmp_group_items_fc h1).2, ← (tmp_group_items_fc h2).2]

/-- C10 witness: a record with four failures at threshold 3 is listed in the
confirmed-DOWN section with a count at or above the threshold. -/
theorem C10_witness :
    3 ≤ (Item.mk 4 (some 503) (some "HTTP_503") "https://a.test/").fc ∧
    (Item.mk 4 (some 503) (some "HTTP_503") "https://a.test/").fc ≠ 0 :=
  C10_sections_disjoint.1 3 [sampleFail] st0
    (Item.mk 4 (some 503) (some "HTTP_503") "https://a.test/") (by decide)

/-- C5 witness: a concrete timeout is captured as the dedicated TIMEOUT
outcome with the page closed. -/
theorem C5_witness :
    check_one "https://e.test/" (PageAcq.acquired NavResult.timeout) =
      Except.ok ({ url := "https://e.test/", ok := false, status := none,
                   reason := some "TIMEOUT", final_url := "https://e.test/" }, true) :=
  C5_prober_capture.2.1 "https://e.test/"

/-- C9 witness: two concrete renderings share every line after the
timestamp header. -/
theorem C9_witness :
    ∃ rest : List String,
      build_pretty_summary cfg0 "a" "t" [] [] =
        joinLines (("t" ++ " (UTC): " ++ "a") :: rest) ∧
      build_pretty_summary cfg0 "b" "t" [] [] =
        joinLines (("t" ++ " (UTC): " ++ "b") :: rest) :=
  C9_render_deterministic cfg0 "t" [] [] "a" "b"

end Monitor
